import Mathlib

/-!
# FullStop Windows runner: single-instance hand-off

Shallow embedding of `windows/runner/main.cpp`.

* Wide strings (`std::wstring`, `wchar_t*`) are lists of UTF-16 code units (`Nat`);
  narrow strings (`std::string`) are lists of bytes (`Nat`).  A C string is modelled by the
  characters that precede its terminating null.
* `size_t` positions returned by `find` are `Option Nat`, with `none` for `npos`.
* Window handles are `Nat`, `0` being `nullptr`.
* Calls into the operating system are recorded in a trace of `Event`s; what the operating
  system answers is read from an `Env` record.
-/

namespace FullStop

/-! ## Strings -/

/-- A string literal of ASCII text, wide (`L"..."`, one code unit per character) or narrow
(one byte per character): the character codes. -/
def L (s : String) : List Nat := s.toList.map Char.toNat

/-- The scheme searched for by `ExtractDeepLink`: `L"fullstop://"`. -/
def kScheme : List Nat := L "fullstop://"

/-- The double-quote character. -/
def kQuote : Nat := 34

/-- The space character. -/
def kSpace : Nat := 32

/-- The backslash character. -/
def kBackslash : Nat := 92

/-- `std::wstring::find(const wchar_t* s)`: the position of the first occurrence of `needle`
in `hay`, or `none` (`npos`) when there is none.  The search tries position 0, then moves on. -/
def wstring_find : List Nat → List Nat → Option Nat
  | [], needle => if needle.isPrefixOf [] then some 0 else none
  | c :: t, needle =>
    if needle.isPrefixOf (c :: t) then some 0
    else (wstring_find t needle).map (· + 1)

/-- `std::wstring::find(wchar_t ch)`: the position of the first `ch`, or `none` (`npos`). -/
def wstring_find_char : List Nat → Nat → Option Nat
  | [], _ => none
  | c :: t, ch => if c = ch then some 0 else (wstring_find_char t ch).map (· + 1)

/-- `std::wstring::substr(pos)`: the characters from `pos` to the end. -/
def substr_from (s : List Nat) (pos : Nat) : List Nat := s.drop pos

/-- `std::wstring::substr(pos, count)`: at most `count` characters from `pos`. -/
def substr (s : List Nat) (pos count : Nat) : List Nat := (s.drop pos).take count

/-- `WideToUtf8`.  `W2U wstr` is what the pair of `WideCharToMultiByte(CP_UTF8, ...)` calls
leaves in `strTo` for a non-empty `wstr`; the empty string is returned without a call. -/
def WideToUtf8 (W2U : List Nat → List Nat) (wstr : List Nat) : List Nat :=
  if wstr.isEmpty then [] else W2U wstr

/-- `ExtractDeepLink(const wchar_t* cmdLine)`; `none` is the null pointer. -/
def ExtractDeepLink (W2U : List Nat → List Nat) (cmdLine : Option (List Nat)) : List Nat :=
  match cmdLine with
  | none => []
  | some cmd =>
    match wstring_find cmd kScheme with
    | some pos =>
      let link := substr_from cmd pos
      let link :=
        match wstring_find_char link kQuote with
        | some endPos => substr link 0 endPos
        | none => link
      let link :=
        match wstring_find_char link kSpace with
        | some endPos => substr link 0 endPos
        | none => link
      WideToUtf8 W2U link
    | none => []

/-! ### UTF-16 to UTF-8 -/

/-- UTF-8 bytes of one code point. -/
def utf8EncodeCodePoint (cp : Nat) : List Nat :=
  if cp < 0x80 then [cp]
  else if cp < 0x800 then [0xC0 + cp / 64, 0x80 + cp % 64]
  else if cp < 0x10000 then [0xE0 + cp / 4096, 0x80 + cp / 64 % 64, 0x80 + cp % 64]
  else [0xF0 + cp / 262144, 0x80 + cp / 4096 % 64, 0x80 + cp / 64 % 64, 0x80 + cp % 64]

/-- UTF-16 to UTF-8 with a pending high surrogate `hi` (if any): surrogate pairs are
combined, a surrogate without its partner becomes U+FFFD. -/
def utf16ToUtf8Aux : Option Nat → List Nat → List Nat
  | none, [] => []
  | some _, [] => utf8EncodeCodePoint 0xFFFD
  | none, c :: t =>
    if 0xD800 ≤ c ∧ c < 0xDC00 then utf16ToUtf8Aux (some c) t
    else if 0xDC00 ≤ c ∧ c < 0xE000 then utf8EncodeCodePoint 0xFFFD ++ utf16ToUtf8Aux none t
    else utf8EncodeCodePoint c ++ utf16ToUtf8Aux none t
  | some hi, d :: t =>
    if 0xDC00 ≤ d ∧ d < 0xE000 then
      utf8EncodeCodePoint (0x10000 + (hi - 0xD800) * 1024 + (d - 0xDC00)) ++ utf16ToUtf8Aux none t
    else if 0xD800 ≤ d ∧ d < 0xDC00 then
      utf8EncodeCodePoint 0xFFFD ++ utf16ToUtf8Aux (some d) t
    else utf8EncodeCodePoint 0xFFFD ++ (utf8EncodeCodePoint d ++ utf16ToUtf8Aux none t)

/-- The documented result of `WideCharToMultiByte(CP_UTF8, 0, ...)` on a wide string. -/
def utf16ToUtf8 (wstr : List Nat) : List Nat := utf16ToUtf8Aux none wstr

/-- The reference definition of the extractor, following the specification: empty for a null
pointer or a text without the scheme; otherwise the text from the first position at which
the scheme starts, up to the first double-quote or space, or to the end of the line. -/
def ExtractDeepLink_reference (W2U : List Nat → List Nat) (cmdLine : Option (List Nat)) :
    List Nat :=
  match cmdLine with
  | none => []
  | some text =>
    match (List.range (text.length + 1)).find? (fun i => kScheme.isPrefixOf (text.drop i)) with
    | none => []
    | some i => WideToUtf8 W2U ((text.drop i).takeWhile (fun c => c != kQuote && c != kSpace))

/-! ## Operating system interface -/

/-- A window handle; `0` is `nullptr`. -/
abbrev HWND := Nat

/-- A kernel object handle; `0` is `nullptr`. -/
abbrev HANDLE := Nat

/-- The null pointer. -/
def nullptr : Nat := 0

/-- Modelled from the spec: `WM_USER` of `<windows.h>`, `0x0400`. -/
def WM_USER : Nat := 0x0400

/-- The message number `WM_COPYDATA` of `<windows.h>` (Windows SDK value; no theorem depends
on the number). -/
def WM_COPYDATA : Nat := 0x004A

/-- The show command `SW_RESTORE` of `<windows.h>` (Windows SDK value; no theorem depends on
the number). -/
def SW_RESTORE : Nat := 9

/-- The error code `ERROR_ALREADY_EXISTS` of `<winerror.h>` (Windows SDK value; no theorem
depends on the number). -/
def ERROR_ALREADY_EXISTS : Nat := 183

/-- Modelled from the spec: `EXIT_SUCCESS` of `<stdlib.h>`, the exit code 0. -/
def EXIT_SUCCESS : Int := 0

/-- Modelled from the spec: `EXIT_FAILURE` of `<stdlib.h>`, the exit code 1. -/
def EXIT_FAILURE : Int := 1

/-- `#define APPLINK_MSG_ID (WM_USER + 2)`. -/
def APPLINK_MSG_ID : Nat := WM_USER + 2

/-- `kAppMutexName`. -/
def kAppMutexName : List Nat := L "FullStop_SingleInstance_Mutex"

/-- `kWindowClassName`. -/
def kWindowClassName : List Nat := L "FLUTTER_RUNNER_WIN32_WINDOW"

/-- `kWindowTitle`. -/
def kWindowTitle : List Nat := L "FullStop"

/-- `COPYDATASTRUCT`.  `lpData` holds the bytes readable at the pointer; `cbData` of them are
handed to the receiver. -/
structure COPYDATASTRUCT where
  dwData : Nat
  cbData : Nat
  lpData : List Nat
  deriving DecidableEq, Repr

/-- The bytes a receiver of `WM_COPYDATA` is given: `cbData` bytes starting at `lpData`. -/
def COPYDATASTRUCT.buffer (cds : COPYDATASTRUCT) : List Nat := cds.lpData.take cds.cbData

/-- The functions of `main.cpp` whose invocation is recorded in the trace. -/
inductive Fn where
  | ExtractDeepLink
  | FindExistingWindow
  | SendDeepLinkToExistingInstance
  deriving DecidableEq, Repr

/-- One observable step of a run: a call into the operating system or the runner library,
or (`call`) the invocation of one of this file's functions. -/
inductive Event where
  | OutputDebugStringW (text : List Nat)
  | OutputDebugStringA (text : List Nat)
  | CreateMutex (bInitialOwner : Bool) (name : List Nat)
  | GetLastError
  | CloseHandle (h : HANDLE)
  | EnumWindows
  | GetClassName (hwnd : HWND) (nMaxCount : Nat)
  | GetWindowText (hwnd : HWND) (nMaxCount : Nat)
  | SetForegroundWindow (hwnd : HWND)
  | IsIconic (hwnd : HWND)
  | ShowWindow (hwnd : HWND) (nCmdShow : Nat)
  | SendMessage (hwnd : HWND) (msg : Nat) (wParam : Nat) (cds : COPYDATASTRUCT)
  | AttachConsole
  | IsDebuggerPresent
  | CreateAndAttachConsole
  | CoInitializeEx
  | CoUninitialize
  | GetCommandLineArguments
  | WindowCreate (title : List Nat) (x y width height : Nat)
  | SetQuitOnClose (quit : Bool)
  | GetMessage
  | TranslateMessage (msg : Nat)
  | DispatchMessage (msg : Nat)
  | call (f : Fn)
  deriving DecidableEq, Repr

/-- A top-level window as the enumeration sees it: its handle, and the strings that
`GetClassName(hwnd, className, 256)` and `GetWindowText(hwnd, windowTitle, 256)` put in the
buffers.  The value returned by either call is the length of its string (0 on failure). -/
structure WindowInfo where
  hwnd : HWND
  className : List Nat
  windowTitle : List Nat
  deriving DecidableEq, Repr

/-- What the environment answers during one run of the process. -/
structure Env where
  /-- The conversion done by `WideCharToMultiByte(CP_UTF8, ...)`. -/
  W2U : List Nat → List Nat
  /-- The handle returned by `CreateMutex`. -/
  hMutex : HANDLE
  /-- The value of `GetLastError()` right after `CreateMutex`. -/
  lastError : Nat
  /-- The top-level windows in the order `EnumWindows` presents them. -/
  windows : List WindowInfo
  /-- The answer of `IsIconic`. -/
  isIconic : HWND → Bool
  /-- The `LRESULT` of `SendMessage(hwnd, msg, wParam, &cds)`. -/
  sendMessage : HWND → Nat → Nat → COPYDATASTRUCT → Int
  /-- The answer of `AttachConsole(ATTACH_PARENT_PROCESS)`. -/
  attachConsole : Bool
  /-- The answer of `IsDebuggerPresent()`. -/
  isDebuggerPresent : Bool
  /-- The answer of `window.Create(kWindowTitle, origin, size)`. -/
  windowCreate : Bool
  /-- The messages `GetMessage` retrieves before it returns 0. -/
  messages : List Nat

/-- The mutable state of the process: the static `g_foundWindow` and the trace so far. -/
structure State where
  g_foundWindow : HWND
  trace : List Event
  deriving DecidableEq, Repr

/-- The state at process start: `g_foundWindow = nullptr`, nothing done yet. -/
def State.initial : State := { g_foundWindow := nullptr, trace := [] }

/-- Record events at the end of the trace. -/
def State.emit (st : State) (es : List Event) : State := { st with trace := st.trace ++ es }

/-- `wcscmp`: negative, zero or positive as the first string is less than, equal to or
greater than the second. -/
def wcscmp : List Nat → List Nat → Int
  | [], [] => 0
  | [], _ :: _ => -1
  | _ :: _, [] => 1
  | a :: s, b :: t => if a < b then -1 else if b < a then 1 else wcscmp s t

/-! ## The functions of `main.cpp` -/

/-- `EnumWindowsCallback`; the Boolean is the value returned to `EnumWindows`
(`true` continues the enumeration). -/
def EnumWindowsCallback (w : WindowInfo) (st : State) : Bool × State :=
  let st := st.emit [Event.GetClassName w.hwnd 256]
  if w.className.length = 0 then (true, st)
  else if wcscmp w.className kWindowClassName ≠ 0 then (true, st)
  else
    let st := st.emit [Event.GetWindowText w.hwnd 256]
    if w.windowTitle.length = 0 then (true, st)
    else if wcscmp w.windowTitle kWindowTitle = 0 then
      (false, { st with g_foundWindow := w.hwnd })
    else (true, st)

/-- `EnumWindows(EnumWindowsCallback, 0)`: the callback is run on each window in turn until
it returns `FALSE`. -/
def EnumWindows : List WindowInfo → State → State
  | [], st => st
  | w :: ws, st =>
    match EnumWindowsCallback w st with
    | (true, st1) => EnumWindows ws st1
    | (false, st1) => st1

/-- `FindExistingWindow`. -/
def FindExistingWindow (windows : List WindowInfo) (st : State) : HWND × State :=
  let st := { st with g_foundWindow := nullptr }
  let st := st.emit [Event.EnumWindows]
  let st := EnumWindows windows st
  (st.g_foundWindow, st)

/-- `SendDeepLinkToExistingInstance`.  `cbData` is a `DWORD`, hence the reduction modulo
`2^32` of `deepLink.size() + 1`; `lpData` points at `deepLink.c_str()`, the bytes of the
string followed by its terminating null. -/
def SendDeepLinkToExistingInstance (env : Env) (hwnd : HWND) (deepLink : List Nat)
    (st : State) : Bool × State :=
  if hwnd = nullptr ∨ deepLink.isEmpty then (false, st)
  else
    let st := st.emit [Event.SetForegroundWindow hwnd]
    let st := st.emit [Event.IsIconic hwnd]
    let st := if env.isIconic hwnd then st.emit [Event.ShowWindow hwnd SW_RESTORE] else st
    let cds : COPYDATASTRUCT :=
      { dwData := APPLINK_MSG_ID
        cbData := (deepLink.length + 1) % 2 ^ 32
        lpData := deepLink ++ [0] }
    let st := st.emit [Event.SendMessage hwnd WM_COPYDATA hwnd cds]
    let result := env.sendMessage hwnd WM_COPYDATA hwnd cds
    (decide (result ≠ 0), st)

/-- `DebugLog(const wchar_t*)`. -/
def DebugLogW (message : List Nat) (st : State) : State :=
  st.emit [Event.OutputDebugStringW message, Event.OutputDebugStringW (L "\n")]

/-- `DebugLog(const char*)`. -/
def DebugLogA (message : List Nat) (st : State) : State :=
  st.emit [Event.OutputDebugStringA message, Event.OutputDebugStringA (L "\n")]

/-- The message loop `while (GetMessage(...)) { TranslateMessage; DispatchMessage; }`, run
over the messages retrieved before `GetMessage` returns 0. -/
def messageLoop : List Nat → State → State
  | [], st => st.emit [Event.GetMessage]
  | m :: ms, st =>
    messageLoop ms
      (st.emit [Event.GetMessage, Event.TranslateMessage m, Event.DispatchMessage m])

/-- `if (hMutex != nullptr) CloseHandle(hMutex);`. -/
def closeMutex (hMutex : HANDLE) (st : State) : State :=
  if hMutex ≠ nullptr then st.emit [Event.CloseHandle hMutex] else st

/-- `wWinMain`: the exit code and the final state of a run started in `State.initial`. -/
def wWinMain (env : Env) (command_line : List Nat) : Int × State :=
  let st := State.initial
  let st := DebugLogW (L "[FullStop] Application starting...") st
  let st := DebugLogW (L "[FullStop] Command line:") st
  let st := DebugLogW command_line st
  let st := st.emit [Event.CreateMutex true kAppMutexName]
  let hMutex := env.hMutex
  let st := st.emit [Event.GetLastError]
  let alreadyRunning := decide (env.lastError = ERROR_ALREADY_EXISTS)
  if alreadyRunning then
    let st := DebugLogW (L "[FullStop] Another instance is already running") st
    let st := st.emit [Event.call Fn.ExtractDeepLink]
    let deepLink := ExtractDeepLink env.W2U (some command_line)
    let st := DebugLogA (L "[FullStop] Extracted deep link:") st
    let st := DebugLogA (if deepLink.isEmpty then L "(empty)" else deepLink) st
    let st := st.emit [Event.call Fn.FindExistingWindow]
    let (existingWindow, st) := FindExistingWindow env.windows st
    let st :=
      if existingWindow ≠ nullptr then
        let st := DebugLogW (L "[FullStop] Found existing window") st
        if ¬ deepLink.isEmpty then
          let st := DebugLogW (L "[FullStop] Sending deep link to existing instance...") st
          let st := st.emit [Event.call Fn.SendDeepLinkToExistingInstance]
          let (sent, st) := SendDeepLinkToExistingInstance env existingWindow deepLink st
          DebugLogW (if sent then L "[FullStop] Deep link sent successfully"
            else L "[FullStop] Failed to send deep link") st
        else
          let st := DebugLogW (L "[FullStop] No deep link, just bringing window to front") st
          let st := st.emit [Event.SetForegroundWindow existingWindow]
          let st := st.emit [Event.IsIconic existingWindow]
          if env.isIconic existingWindow then
            st.emit [Event.ShowWindow existingWindow SW_RESTORE]
          else st
      else DebugLogW (L "[FullStop] Could not find existing window!") st
    let st := closeMutex hMutex st
    (EXIT_SUCCESS, st)
  else
    let st := DebugLogW (L "[FullStop] This is the first instance") st
    let st := st.emit [Event.AttachConsole]
    let st :=
      if ¬ env.attachConsole then
        let st := st.emit [Event.IsDebuggerPresent]
        if env.isDebuggerPresent then st.emit [Event.CreateAndAttachConsole] else st
      else st
    let st := st.emit [Event.CoInitializeEx]
    let st := st.emit [Event.GetCommandLineArguments]
    let st := st.emit [Event.WindowCreate kWindowTitle 10 10 1280 720]
    if ¬ env.windowCreate then
      let st := closeMutex hMutex st
      (EXIT_FAILURE, st)
    else
      let st := st.emit [Event.SetQuitOnClose true]
      let st := messageLoop env.messages st
      let st := st.emit [Event.CoUninitialize]
      let st := closeMutex hMutex st
      (EXIT_SUCCESS, st)

/-! ## Reference definitions and sample data -/

/-- The reference definition of the locator, following the specification: the handle of the
first window, in enumeration order, whose class name and title both equal the fixed ones;
the null handle when there is none. -/
def FindExistingWindow_reference (windows : List WindowInfo) : HWND :=
  match windows.find?
      (fun w => decide (w.className = kWindowClassName ∧ w.windowTitle = kWindowTitle)) with
  | some w => w.hwnd
  | none => nullptr

/-- The reads done by `EnumWindowsCallback` on one window. -/
def callbackReads (w : WindowInfo) : List Event :=
  if w.className = kWindowClassName then
    [Event.GetClassName w.hwnd 256, Event.GetWindowText w.hwnd 256]
  else [Event.GetClassName w.hwnd 256]

/-- The reads done by the enumeration: those of each window up to the first match. -/
def enumReads : List WindowInfo → List Event
  | [] => []
  | w :: ws =>
    if w.className = kWindowClassName ∧ w.windowTitle = kWindowTitle then callbackReads w
    else callbackReads w ++ enumReads ws

/-- The calls that act on a window: activation and message sending. -/
def Event.isWindowAction : Event → Bool
  | Event.SetForegroundWindow _ => true
  | Event.IsIconic _ => true
  | Event.ShowWindow _ _ => true
  | Event.SendMessage _ _ _ _ => true
  | _ => false

/-- The calls that send a message to a window. -/
def Event.isSendMessage : Event → Bool
  | Event.SendMessage _ _ _ _ => true
  | _ => false

/-- The invocations of the function `f` of `main.cpp`. -/
def Event.isCall (f : Fn) : Event → Bool
  | Event.call g => decide (g = f)
  | _ => false

/-- The calls that create the host window. -/
def Event.isWindowCreate : Event → Bool
  | Event.WindowCreate _ _ _ _ _ => true
  | _ => false

/-- A run environment: a second launch (the mutex exists already), with the application
window enumerated second, minimized, and answering 1 to messages. -/
def sampleEnv : Env :=
  { W2U := utf16ToUtf8
    hMutex := 7
    lastError := ERROR_ALREADY_EXISTS
    windows := [⟨5, L "Shell_TrayWnd", []⟩, ⟨9, kWindowClassName, kWindowTitle⟩]
    isIconic := fun _ => true
    sendMessage := fun _ _ _ _ => 1
    attachConsole := false
    isDebuggerPresent := false
    windowCreate := true
    messages := [1, 2] }

/-- `INT_MAX` of `<limits.h>`, the largest `int`.  A deep link is the string `WideToUtf8`
builds as `std::string strTo(size_needed, 0)` with `int size_needed`, or the empty string,
so its size is at most `INT_MAX`. -/
def INT_MAX : Nat := 2147483647

/-! ## String search lemmas -/

theorem kScheme_eq : kScheme = [102, 117, 108, 108, 115, 116, 111, 112, 58, 47, 47] := by
  decide

theorem wstring_find_eq_find_range (needle : List Nat) (hay : List Nat) :
    wstring_find hay needle
      = (List.range (hay.length + 1)).find? (fun i => needle.isPrefixOf (hay.drop i)) := by
  induction hay with
  | nil =>
    cases h : needle.isPrefixOf [] <;> simp [wstring_find, List.range_succ, h]
  | cons c t ih =>
    rw [wstring_find, List.length_cons, List.range_succ_eq_map, List.find?_cons, List.drop_zero]
    cases h : needle.isPrefixOf (c :: t)
    · simp only [Bool.false_eq_true, if_false, ih, List.find?_map]
      congr 1
    · simp

theorem truncate_at_char (l : List Nat) (ch : Nat) :
    (match wstring_find_char l ch with
      | some endPos => substr l 0 endPos
      | none => l) = l.takeWhile (fun c => c != ch) := by
  induction l with
  | nil => simp [wstring_find_char]
  | cons c t ih =>
    rw [wstring_find_char]
    by_cases h : c = ch
    · simp [h, substr]
    · rw [if_neg h]
      cases hf : wstring_find_char t ch with
      | none =>
        rw [hf] at ih
        simp only [Option.map_none']
        rw [List.takeWhile_cons]
        simp [h, ← ih]
      | some e =>
        rw [hf] at ih
        simp only [Option.map_some']
        rw [List.takeWhile_cons]
        simp [h, ← ih, substr]

theorem takeWhile_takeWhile_and (p q : Nat → Bool) (l : List Nat) :
    (l.takeWhile p).takeWhile q = l.takeWhile (fun c => p c && q c) := by
  induction l with
  | nil => rfl
  | cons c t ih =>
    rw [List.takeWhile_cons, List.takeWhile_cons]
    cases hp : p c
    · simp
    · rw [if_pos rfl, List.takeWhile_cons]
      cases hq : q c
      · simp
      · simp [ih]

/-- The wide text `ExtractDeepLink` converts, once the scheme has been found at `pos`. -/
theorem truncate_link (link : List Nat) :
    (match wstring_find_char
        (match wstring_find_char link kQuote with
          | some endPos => substr link 0 endPos
          | none => link) kSpace with
      | some endPos =>
        substr (match wstring_find_char link kQuote with
          | some endPos => substr link 0 endPos
          | none => link) 0 endPos
      | none =>
        (match wstring_find_char link kQuote with
          | some endPos => substr link 0 endPos
          | none => link))
      = link.takeWhile (fun c => c != kQuote && c != kSpace) := by
  rw [truncate_at_char, truncate_at_char, takeWhile_takeWhile_and]

theorem ExtractDeepLink_some (W2U : List Nat → List Nat) (cmd : List Nat) :
    ExtractDeepLink W2U (some cmd)
      = match wstring_find cmd kScheme with
        | some pos =>
          WideToUtf8 W2U ((cmd.drop pos).takeWhile (fun c => c != kQuote && c != kSpace))
        | none => [] := by
  simp only [ExtractDeepLink, substr_from]
  cases wstring_find cmd kScheme with
  | none => rfl
  | some pos =>
    simp only []
    rw [truncate_link]

theorem wstring_find_first (needle : List Nat) :
    ∀ (hay : List Nat) (i : Nat), needle.isPrefixOf (hay.drop i) = true →
      (∀ j, j < i → needle.isPrefixOf (hay.drop j) = false) →
      wstring_find hay needle = some i := by
  intro hay
  induction hay with
  | nil =>
    intro i hi hfirst
    have h0 : needle.isPrefixOf ([] : List Nat) = true := by simpa using hi
    rcases Nat.eq_zero_or_pos i with rfl | hpos
    · simp [wstring_find, h0]
    · have := hfirst 0 hpos
      simp [h0] at this
  | cons c t ih =>
    intro i hi hfirst
    cases i with
    | zero =>
      rw [List.drop_zero] at hi
      simp [wstring_find, hi]
    | succ k =>
      have h0 : needle.isPrefixOf (c :: t) = false := by
        simpa using hfirst 0 (Nat.succ_pos k)
      have hk : wstring_find t needle = some k := by
        apply ih k
        · simpa using hi
        · intro j hj
          simpa using hfirst (j + 1) (Nat.succ_lt_succ hj)
      simp [wstring_find, h0, hk]

theorem takeWhile_eq_take (p : Nat → Bool) :
    ∀ (l : List Nat) (n : Nat), (∀ m, m < n → ∃ x, l[m]? = some x ∧ p x = true) →
      (∃ x, l[n]? = some x ∧ p x = false) → l.takeWhile p = l.take n := by
  intro l
  induction l with
  | nil =>
    intro n _ hn
    simp at hn
  | cons c t ih =>
    intro n hlt hn
    cases n with
    | zero =>
      obtain ⟨x, hx, hpx⟩ := hn
      simp at hx
      subst hx
      simp [List.takeWhile_cons, hpx]
    | succ k =>
      obtain ⟨x, hx, hpx⟩ := hlt 0 (Nat.succ_pos k)
      simp at hx
      subst hx
      rw [List.takeWhile_cons, if_pos hpx, List.take_succ_cons]
      congr 1
      apply ih k
      · intro m hm
        simpa using hlt (m + 1) (Nat.succ_lt_succ hm)
      · simpa using hn

/-- The extractor at the first occurrence of the scheme: when the scheme starts at `i` and at
no earlier position, the link is the text from `i` up to the first quote or space. -/
theorem ExtractDeepLink_at_first_occurrence (W2U : List Nat → List Nat) (cmd : List Nat)
    (i : Nat) (hi : kScheme.isPrefixOf (cmd.drop i) = true)
    (hfirst : ∀ j, j < i → kScheme.isPrefixOf (cmd.drop j) = false) :
    ExtractDeepLink W2U (some cmd)
      = WideToUtf8 W2U ((cmd.drop i).takeWhile (fun c => c != kQuote && c != kSpace)) := by
  rw [ExtractDeepLink_some, wstring_find_first kScheme cmd i hi hfirst]

/-- The extractor on a text in which the scheme starts nowhere. -/
theorem ExtractDeepLink_absent (W2U : List Nat → List Nat) (cmd : List Nat)
    (h : ∀ i, kScheme.isPrefixOf (cmd.drop i) = false) :
    ExtractDeepLink W2U (some cmd) = [] := by
  rw [ExtractDeepLink_some, wstring_find_eq_find_range]
  have : (List.range (cmd.length + 1)).find? (fun i => kScheme.isPrefixOf (cmd.drop i))
      = none := by
    rw [List.find?_eq_none]
    intro x _
    simp [h x]
  rw [this]

/-! ## Lemmas on the notifier -/

theorem SendDeepLinkToExistingInstance_send (env : Env) (hwnd : HWND) (d : List Nat)
    (st : State) (hw : hwnd ≠ nullptr) (hd : d ≠ []) :
    SendDeepLinkToExistingInstance env hwnd d st
      = (decide (env.sendMessage hwnd WM_COPYDATA hwnd
            ⟨APPLINK_MSG_ID, (d.length + 1) % 2 ^ 32, d ++ [0]⟩ ≠ 0),
          st.emit ([Event.SetForegroundWindow hwnd, Event.IsIconic hwnd]
            ++ (if env.isIconic hwnd then [Event.ShowWindow hwnd SW_RESTORE] else [])
            ++ [Event.SendMessage hwnd WM_COPYDATA hwnd
                  ⟨APPLINK_MSG_ID, (d.length + 1) % 2 ^ 32, d ++ [0]⟩])) := by
  have hne : d.isEmpty = false := by
    cases d with
    | nil => exact absurd rfl hd
    | cons _ _ => rfl
  unfold SendDeepLinkToExistingInstance
  rw [if_neg (by simp [hw, hne])]
  cases env.isIconic hwnd <;> simp [State.emit]

theorem SendDeepLinkToExistingInstance_skip (env : Env) (hwnd : HWND) (d : List Nat)
    (st : State) (h : hwnd = nullptr ∨ d = []) :
    SendDeepLinkToExistingInstance env hwnd d st = (false, st) := by
  unfold SendDeepLinkToExistingInstance
  rw [if_pos]
  rcases h with h | h
  · exact Or.inl h
  · exact Or.inr (by simp [h])

/-! ## Lemmas on the locator -/

theorem wcscmp_eq_zero_iff : ∀ (a b : List Nat), wcscmp a b = 0 ↔ a = b := by
  intro a
  induction a with
  | nil =>
    intro b
    cases b <;> simp [wcscmp]
  | cons x s ih =>
    intro b
    cases b with
    | nil => simp [wcscmp]
    | cons y t =>
      rw [wcscmp]
      by_cases h1 : x < y
      · simp [h1]
        intro hxy
        omega
      · rw [if_neg h1]
        by_cases h2 : y < x
        · simp [h2]
          intro hxy
          omega
        · rw [if_neg h2, ih t]
          have : x = y := by omega
          simp [this]

theorem kWindowClassName_ne_nil : kWindowClassName ≠ [] := by decide

theorem kWindowTitle_ne_nil : kWindowTitle ≠ [] := by decide

theorem EnumWindowsCallback_eq (w : WindowInfo) (st : State) :
    EnumWindowsCallback w st
      = if w.className = kWindowClassName ∧ w.windowTitle = kWindowTitle then
          (false, { g_foundWindow := w.hwnd, trace := st.trace ++ callbackReads w })
        else (true, st.emit (callbackReads w)) := by
  have hk1 : kWindowClassName.length ≠ 0 := by decide
  have hk2 : kWindowTitle.length ≠ 0 := by decide
  unfold EnumWindowsCallback callbackReads
  simp only [wcscmp_eq_zero_iff, ne_eq, State.emit]
  by_cases hc : w.className = kWindowClassName
  · have hlen : ¬ w.className.length = 0 := by rw [hc]; exact hk1
    rw [if_neg hlen, if_neg (not_not.mpr hc)]
    by_cases ht : w.windowTitle = kWindowTitle
    · have hlen2 : ¬ w.windowTitle.length = 0 := by rw [ht]; exact hk2
      rw [if_neg hlen2, if_pos ht, if_pos ⟨hc, ht⟩, if_pos hc]
      simp
    · have hboth : ¬ (w.className = kWindowClassName ∧ w.windowTitle = kWindowTitle) :=
        fun h => ht h.2
      rw [if_neg ht, if_neg hboth, if_pos hc]
      split <;> simp
  · have hboth : ¬ (w.className = kWindowClassName ∧ w.windowTitle = kWindowTitle) :=
      fun h => hc h.1
    rw [if_neg hboth, if_neg hc]
    split <;> rfl

theorem EnumWindows_eq : ∀ (windows : List WindowInfo) (st : State),
    EnumWindows windows st
      = { g_foundWindow :=
            match windows.find? (fun w =>
                decide (w.className = kWindowClassName ∧ w.windowTitle = kWindowTitle)) with
            | some w => w.hwnd
            | none => st.g_foundWindow
          trace := st.trace ++ enumReads windows } := by
  intro windows
  induction windows with
  | nil =>
    intro st
    simp [EnumWindows, enumReads]
  | cons w ws ih =>
    intro st
    rw [EnumWindows, EnumWindowsCallback_eq, enumReads, List.find?_cons]
    by_cases h : w.className = kWindowClassName ∧ w.windowTitle = kWindowTitle
    · rw [if_pos h, if_pos h]
      simp [h]
    · rw [if_neg h, if_neg h]
      simp only [h, decide_False, ih, State.emit, List.append_assoc]

theorem FindExistingWindow_eq (windows : List WindowInfo) (st : State) :
    FindExistingWindow windows st
      = (FindExistingWindow_reference windows,
          { g_foundWindow := FindExistingWindow_reference windows
            trace := st.trace ++ Event.EnumWindows :: enumReads windows }) := by
  unfold FindExistingWindow FindExistingWindow_reference
  simp only [EnumWindows_eq, State.emit, List.append_assoc, List.singleton_append]

theorem callbackReads_not_action (w : WindowInfo) :
    ∀ e ∈ callbackReads w, e.isWindowAction = false ∧ e.isWindowCreate = false
      ∧ ∀ f, e ≠ Event.call f := by
  intro e he
  unfold callbackReads at he
  split at he <;> simp at he <;> rcases he with rfl | rfl <;>
    simp [Event.isWindowAction, Event.isWindowCreate]

theorem enumReads_not_action : ∀ (windows : List WindowInfo),
    ∀ e ∈ enumReads windows, e.isWindowAction = false ∧ e.isWindowCreate = false
      ∧ ∀ f, e ≠ Event.call f := by
  intro windows
  induction windows with
  | nil =>
    intro e he
    simp [enumReads] at he
  | cons w ws ih =>
    intro e he
    rw [enumReads] at he
    split at he
    · exact callbackReads_not_action w e he
    · rcases List.mem_append.mp he with h | h
      · exact callbackReads_not_action w e h
      · exact ih e h

theorem isSendMessage_isWindowAction (e : Event) (h : e.isWindowAction = false) :
    e.isSendMessage = false := by
  cases e <;> simp_all [Event.isWindowAction, Event.isSendMessage]

theorem enumReads_filter_action (windows : List WindowInfo) :
    (enumReads windows).filter Event.isWindowAction = [] := by
  rw [List.filter_eq_nil_iff]
  intro e he
  simp [(enumReads_not_action windows e he).1]

theorem enumReads_filter_send (windows : List WindowInfo) :
    (enumReads windows).filter Event.isSendMessage = [] := by
  rw [List.filter_eq_nil_iff]
  intro e he
  simp [isSendMessage_isWindowAction e (enumReads_not_action windows e he).1]

theorem enumReads_filter_create (windows : List WindowInfo) :
    (enumReads windows).filter Event.isWindowCreate = [] := by
  rw [List.filter_eq_nil_iff]
  intro e he
  simp [(enumReads_not_action windows e he).2.1]

theorem enumReads_filter_call (windows : List WindowInfo) (f : Fn) :
    (enumReads windows).filter (Event.isCall f) = [] := by
  rw [List.filter_eq_nil_iff]
  intro e he
  have h := (enumReads_not_action windows e he).2.2
  cases e <;> simp [Event.isCall]
  exact absurd rfl (h _)

theorem forall_false_of_filter {p : Event → Bool} {l : List Event} (h : l.filter p = []) :
    ∀ e ∈ l, p e = false := by
  intro e he
  have := List.filter_eq_nil_iff.mp h e he
  simpa using this

theorem call_not_mem_of_filter {f : Fn} {l : List Event}
    (h : l.filter (Event.isCall f) = []) : Event.call f ∉ l := by
  intro hmem
  have := forall_false_of_filter h _ hmem
  simp [Event.isCall] at this

/-- C1: `ExtractDeepLink` equals the reference definition on every command line (null
pointer included): the empty string without the scheme, otherwise the text from the first
occurrence of `fullstop://` up to the first double-quote or space, or to the end of the
line.  The three documented command lines give the documented links, and with two
occurrences of the scheme the link starts at the first. -/
theorem ExtractDeepLink_eq_reference :
    (∀ (W2U : List Nat → List Nat) (cmdLine : Option (List Nat)),
      ExtractDeepLink W2U cmdLine = ExtractDeepLink_reference W2U cmdLine)
    ∧ ExtractDeepLink utf16ToUtf8 (some (L "\"C:\\app.exe\" fullstop://open/item/42"))
        = L "fullstop://open/item/42"
    ∧ ExtractDeepLink utf16ToUtf8 (some (L "\"C:\\app.exe\" fullstop://x y"))
        = L "fullstop://x"
    ∧ ExtractDeepLink utf16ToUtf8 (some (L "\"C:\\app.exe\"")) = []
    ∧ ExtractDeepLink utf16ToUtf8 (some (L "app.exe fullstop://one\"fullstop://two"))
        = L "fullstop://one" := by
  refine ⟨?_, by decide, by decide, by decide, by decide⟩
  intro W2U cmdLine
  cases cmdLine with
  | none => rfl
  | some cmd =>
    rw [ExtractDeepLink_some, wstring_find_eq_find_range]
    simp only [ExtractDeepLink_reference]
    cases (List.range (cmd.length + 1)).find? (fun i => kScheme.isPrefixOf (cmd.drop i)) <;> rfl

/-- C8 (as stated, refuted): on the command line `fullstop://a\"b c` the link ends at the
double-quote although a backslash precedes it; the result is `fullstop://a\`, not
`fullstop://a\"b`. -/
theorem ExtractDeepLink_escaped_quote_counterexample :
    (L "fullstop://a\\\"b c")[12]? = some kBackslash
    ∧ (L "fullstop://a\\\"b c")[13]? = some kQuote
    ∧ ExtractDeepLink utf16ToUtf8 (some (L "fullstop://a\\\"b c")) = L "fullstop://a\\"
    ∧ ExtractDeepLink utf16ToUtf8 (some (L "fullstop://a\\\"b c")) ≠ L "fullstop://a\\\"b" := by
  decide

/-- C8 (amended): `ExtractDeepLink` truncates the link at the first double-quote, escaped or
not, or the first space, whichever comes first: when the scheme first occurs at `i` and `k`
is the first position from `i` on holding a double-quote or a space, the link is the text
of positions `i` to `k - 1`, whatever character stands at `k - 1`. -/
theorem ExtractDeepLink_truncates_at_any_quote_or_space (W2U : List Nat → List Nat)
    (cmd : List Nat) (i k : Nat)
    (hi : kScheme.isPrefixOf (cmd.drop i) = true)
    (hfirst : ∀ j, j < i → kScheme.isPrefixOf (cmd.drop j) = false)
    (hik : i ≤ k)
    (hk : cmd[k]? = some kQuote ∨ cmd[k]? = some kSpace)
    (hbefore : ∀ m, i ≤ m → m < k → cmd[m]? ≠ some kQuote ∧ cmd[m]? ≠ some kSpace) :
    ExtractDeepLink W2U (some cmd) = WideToUtf8 W2U ((cmd.drop i).take (k - i)) := by
  rw [ExtractDeepLink_at_first_occurrence W2U cmd i hi hfirst]
  congr 1
  have hklt : k < cmd.length := by
    rcases hk with h | h <;>
      exact (List.getElem?_eq_some_iff.mp h).1
  apply takeWhile_eq_take
  · intro m hm
    have hmk : i + m < k := by omega
    have hlt : i + m < cmd.length := by omega
    refine ⟨cmd[i + m], ?_, ?_⟩
    · rw [List.getElem?_drop, List.getElem?_eq_getElem hlt]
    · have := hbefore (i + m) (Nat.le_add_right i m) hmk
      rw [List.getElem?_eq_getElem hlt] at this
      simpa using this
  · refine ⟨cmd[k], ?_, ?_⟩
    · rw [List.getElem?_drop, Nat.add_sub_cancel' hik, List.getElem?_eq_getElem hklt]
    · rw [List.getElem?_eq_getElem hklt] at hk
      rcases hk with h | h
      · have : cmd[k] = kQuote := by simpa using h
        simp [this]
      · have : cmd[k] = kSpace := by simpa using h
        simp [this]

/-- C8 (amended), at the command line `fullstop://a\"b c`: the scheme starts at 0, position
13 holds the first double-quote, position 12 a backslash, and the link is the first 13
characters. -/
theorem ExtractDeepLink_truncates_at_any_quote_or_space_witness :
    (L "fullstop://a\\\"b c")[12]? = some kBackslash
    ∧ ExtractDeepLink utf16ToUtf8 (some (L "fullstop://a\\\"b c"))
        = WideToUtf8 utf16ToUtf8 (((L "fullstop://a\\\"b c").drop 0).take (13 - 0)) :=
  ⟨by decide,
    ExtractDeepLink_truncates_at_any_quote_or_space utf16ToUtf8 (L "fullstop://a\\\"b c") 0 13
      (by decide) (by intro j hj; omega) (by decide) (by decide)
      (by
        intro m _ hm
        interval_cases m <;> decide)⟩

/-- C2 (as stated, refuted): called on the non-null window 9 with an empty deep link, the
notifier returns false and makes no call at all, so the window is not activated. -/
theorem SendDeepLinkToExistingInstance_empty_counterexample :
    (SendDeepLinkToExistingInstance sampleEnv 9 [] State.initial).1 = false
    ∧ (SendDeepLinkToExistingInstance sampleEnv 9 [] State.initial).2.trace = []
    ∧ Event.SetForegroundWindow 9
        ∉ (SendDeepLinkToExistingInstance sampleEnv 9 [] State.initial).2.trace := by
  decide

/-- C2 (amended): for every non-null target window, `SendDeepLinkToExistingInstance` called
with an empty deep link returns false and leaves the state and the trace unchanged: no
activation, no `WM_COPYDATA` message. -/
theorem SendDeepLinkToExistingInstance_empty (env : Env) (hwnd : HWND) (st : State)
    (_hw : hwnd ≠ nullptr) :
    SendDeepLinkToExistingInstance env hwnd [] st = (false, st) :=
  SendDeepLinkToExistingInstance_skip env hwnd [] st (Or.inr rfl)

/-- C2 (amended), at window 9 in the sample environment. -/
theorem SendDeepLinkToExistingInstance_empty_witness :
    (9 : HWND) ≠ nullptr
    ∧ SendDeepLinkToExistingInstance sampleEnv 9 [] State.initial = (false, State.initial) :=
  ⟨by decide, SendDeepLinkToExistingInstance_empty sampleEnv 9 State.initial (by decide)⟩

/-- C5: for every non-null window and every non-empty deep link `d` (a string of `int`
size, as `WideToUtf8` builds them), the call adds to the trace the activation followed by
exactly one `WM_COPYDATA` message to that window, with `dwData = WM_USER + 2 = 1026`,
`cbData = |d| + 1`, and as buffer the bytes of `d` followed by one null byte. -/
theorem SendDeepLinkToExistingInstance_payload (env : Env) (hwnd : HWND) (d : List Nat)
    (st : State) (hw : hwnd ≠ nullptr) (hd : d ≠ []) (hsize : d.length ≤ INT_MAX) :
    (SendDeepLinkToExistingInstance env hwnd d st).2.trace
      = st.trace ++ [Event.SetForegroundWindow hwnd, Event.IsIconic hwnd]
          ++ (if env.isIconic hwnd then [Event.ShowWindow hwnd SW_RESTORE] else [])
          ++ [Event.SendMessage hwnd WM_COPYDATA hwnd
                { dwData := 1026, cbData := d.length + 1, lpData := d ++ [0] }]
    ∧ ((SendDeepLinkToExistingInstance env hwnd d st).2.trace.drop st.trace.length).filter
          Event.isSendMessage
        = [Event.SendMessage hwnd WM_COPYDATA hwnd
            { dwData := 1026, cbData := d.length + 1, lpData := d ++ [0] }]
    ∧ WM_USER + 2 = 1026
    ∧ COPYDATASTRUCT.buffer { dwData := 1026, cbData := d.length + 1, lpData := d ++ [0] }
        = d ++ [0] := by
  have hlt : d.length + 1 < 2 ^ 32 := by
    unfold INT_MAX at hsize
    omega
  rw [SendDeepLinkToExistingInstance_send env hwnd d st hw hd, Nat.mod_eq_of_lt hlt]
  have hid : APPLINK_MSG_ID = 1026 := rfl
  refine ⟨?_, ?_, rfl, ?_⟩
  · simp [State.emit, hid]
  · cases env.isIconic hwnd <;> simp [State.emit, hid, Event.isSendMessage]
  · simp [COPYDATASTRUCT.buffer]

/-- C5, at window 9 and the deep link `fullstop://x` in the sample environment: one
`WM_COPYDATA` message with `cbData = 13` and the 12 bytes of the link followed by a null. -/
theorem SendDeepLinkToExistingInstance_payload_witness :
    (9 : HWND) ≠ nullptr ∧ L "fullstop://x" ≠ [] ∧ (L "fullstop://x").length ≤ INT_MAX
    ∧ ((SendDeepLinkToExistingInstance sampleEnv 9 (L "fullstop://x")
          State.initial).2.trace.drop State.initial.trace.length).filter Event.isSendMessage
        = [Event.SendMessage 9 WM_COPYDATA 9
            { dwData := 1026, cbData := (L "fullstop://x").length + 1,
              lpData := L "fullstop://x" ++ [0] }] :=
  ⟨by decide, by decide, by decide,
    (SendDeepLinkToExistingInstance_payload sampleEnv 9 (L "fullstop://x") State.initial
      (by decide) (by decide) (by decide)).2.1⟩

/-- C6: `SendDeepLinkToExistingInstance` is a total function; with a null window it returns
false for every payload and leaves the trace unchanged; with a non-null window and a
non-empty payload it returns true exactly when `SendMessage` answers a non-zero result, so
an answer of 0 (destroyed window) gives false. -/
theorem SendDeepLinkToExistingInstance_result (env : Env) (hwnd : HWND) (d : List Nat)
    (st : State) :
    SendDeepLinkToExistingInstance env nullptr d st = (false, st)
    ∧ (hwnd ≠ nullptr → d ≠ [] →
        ((SendDeepLinkToExistingInstance env hwnd d st).1 = true
          ↔ env.sendMessage hwnd WM_COPYDATA hwnd
              { dwData := APPLINK_MSG_ID, cbData := (d.length + 1) % 2 ^ 32,
                lpData := d ++ [0] } ≠ 0)
        ∧ (env.sendMessage hwnd WM_COPYDATA hwnd
              { dwData := APPLINK_MSG_ID, cbData := (d.length + 1) % 2 ^ 32,
                lpData := d ++ [0] } = 0
            → (SendDeepLinkToExistingInstance env hwnd d st).1 = false)) := by
  refine ⟨SendDeepLinkToExistingInstance_skip env nullptr d st (Or.inl rfl), ?_⟩
  intro hw hd
  rw [SendDeepLinkToExistingInstance_send env hwnd d st hw hd]
  constructor
  · simp
  · intro h
    simp only [h]
    decide

/-- C6, at window 9 and the deep link `fullstop://x`, once with a receiver answering 1 and
once with a destroyed window (answer 0). -/
theorem SendDeepLinkToExistingInstance_result_witness :
    (SendDeepLinkToExistingInstance sampleEnv 9 (L "fullstop://x") State.initial).1 = true
    ∧ (SendDeepLinkToExistingInstance { sampleEnv with sendMessage := fun _ _ _ _ => 0 } 9
        (L "fullstop://x") State.initial).1 = false
    ∧ SendDeepLinkToExistingInstance sampleEnv nullptr (L "fullstop://x") State.initial
        = (false, State.initial) :=
  ⟨((SendDeepLinkToExistingInstance_result sampleEnv 9 (L "fullstop://x") State.initial).2
      (by decide) (by decide)).1.mpr (by decide),
    ((SendDeepLinkToExistingInstance_result { sampleEnv with sendMessage := fun _ _ _ _ => 0 }
      9 (L "fullstop://x") State.initial).2 (by decide) (by decide)).2 rfl,
    (SendDeepLinkToExistingInstance_result sampleEnv 9 (L "fullstop://x") State.initial).1⟩

/-- C7: for every enumeration sequence and every earlier state, `FindExistingWindow` returns
the reference result: the handle of the first window whose class name is
`FLUTTER_RUNNER_WIN32_WINDOW` and whose title is `FullStop`, all windows before it failing
one of the two tests, and the null handle when no window passes both.  The result does not
depend on the earlier value of `g_foundWindow`, and is what `g_foundWindow` holds
afterwards. -/
theorem FindExistingWindow_first_exact_match (windows : List WindowInfo) (st st' : State) :
    (FindExistingWindow windows st).1 = FindExistingWindow_reference windows
    ∧ (FindExistingWindow windows st').1 = (FindExistingWindow windows st).1
    ∧ (FindExistingWindow windows st).2.g_foundWindow = (FindExistingWindow windows st).1
    ∧ ((∃ pre w post, windows = pre ++ w :: post
          ∧ (∀ v ∈ pre, ¬ (v.className = kWindowClassName ∧ v.windowTitle = kWindowTitle))
          ∧ w.className = kWindowClassName ∧ w.windowTitle = kWindowTitle
          ∧ (FindExistingWindow windows st).1 = w.hwnd)
        ∨ ((∀ v ∈ windows, ¬ (v.className = kWindowClassName ∧ v.windowTitle = kWindowTitle))
          ∧ (FindExistingWindow windows st).1 = nullptr)) := by
  simp only [FindExistingWindow_eq, true_and]
  unfold FindExistingWindow_reference
  cases h : windows.find?
      (fun w => decide (w.className = kWindowClassName ∧ w.windowTitle = kWindowTitle)) with
  | none =>
    right
    rw [List.find?_eq_none] at h
    exact ⟨fun v hv => by simpa using h v hv, rfl⟩
  | some w =>
    left
    rw [List.find?_eq_some] at h
    obtain ⟨hw, pre, post, hsplit, hpre⟩ := h
    have hw2 : w.className = kWindowClassName ∧ w.windowTitle = kWindowTitle := by
      simpa using hw
    refine ⟨pre, w, post, hsplit, ?_, hw2.1, hw2.2, rfl⟩
    intro v hv hboth
    have := hpre v hv
    simp [hboth] at this

/-- C3: the exit code of `wWinMain` is `EXIT_FAILURE = 1` exactly when the mutex did not
exist already (first instance) and `window.Create` fails, and `EXIT_SUCCESS = 0` in every
other run; on the already-running path it is 0 whatever the command line, the windows
enumerated and the answer of `SendMessage`. -/
theorem wWinMain_exit_code (env : Env) (command_line : List Nat) :
    (wWinMain env command_line).1
        = (if env.lastError = ERROR_ALREADY_EXISTS then EXIT_SUCCESS
            else if env.windowCreate then EXIT_SUCCESS else EXIT_FAILURE)
    ∧ EXIT_SUCCESS = 0 ∧ EXIT_FAILURE = 1
    ∧ ((wWinMain env command_line).1 = 1
        ↔ env.lastError ≠ ERROR_ALREADY_EXISTS ∧ env.windowCreate = false)
    ∧ ((wWinMain env command_line).1 = 0
        ↔ env.lastError = ERROR_ALREADY_EXISTS ∨ env.windowCreate = true) := by
  have key : (wWinMain env command_line).1
      = (if env.lastError = ERROR_ALREADY_EXISTS then EXIT_SUCCESS
          else if env.windowCreate then EXIT_SUCCESS else EXIT_FAILURE) := by
    unfold wWinMain
    by_cases h : env.lastError = ERROR_ALREADY_EXISTS
    · simp only [h, decide_True, if_true]
    · cases hc : env.windowCreate <;> simp [h]
  refine ⟨key, rfl, rfl, ?_, ?_⟩
  · rw [key]
    by_cases h : env.lastError = ERROR_ALREADY_EXISTS
    · simp [h, EXIT_SUCCESS]
    · cases hc : env.windowCreate <;> simp [h, EXIT_SUCCESS, EXIT_FAILURE]
  · rw [key]
    by_cases h : env.lastError = ERROR_ALREADY_EXISTS
    · simp [h, EXIT_SUCCESS]
    · cases hc : env.windowCreate <;> simp [h, EXIT_SUCCESS, EXIT_FAILURE]

/-- C4: in a run of `wWinMain` in which the mutex existed already, `ExtractDeepLink` gives the
empty string and `FindExistingWindow` returns the non-null window `w`, the exit code is 0;
the calls acting on a window are `SetForegroundWindow(w)`, `IsIconic(w)` and then
`ShowWindow(w, SW_RESTORE)` exactly when `IsIconic` answers true; no message is sent,
`SendDeepLinkToExistingInstance` is not invoked, and no host window is created. -/
theorem wWinMain_activation_only (env : Env) (command_line : List Nat) (w : HWND)
    (st0 : State)
    (hrun : env.lastError = ERROR_ALREADY_EXISTS)
    (hlink : ExtractDeepLink env.W2U (some command_line) = [])
    (hfound : (FindExistingWindow env.windows st0).1 = w) (hw : w ≠ nullptr) :
    (wWinMain env command_line).1 = 0
    ∧ (wWinMain env command_line).2.trace.filter Event.isWindowAction
        = [Event.SetForegroundWindow w, Event.IsIconic w]
          ++ (if env.isIconic w then [Event.ShowWindow w SW_RESTORE] else [])
    ∧ (∀ e ∈ (wWinMain env command_line).2.trace, e.isSendMessage = false)
    ∧ Event.call Fn.SendDeepLinkToExistingInstance ∉ (wWinMain env command_line).2.trace
    ∧ (∀ e ∈ (wWinMain env command_line).2.trace, e.isWindowCreate = false) := by
  rw [FindExistingWindow_eq] at hfound
  simp only [] at hfound
  simp only [wWinMain, hrun, decide_True, if_true, FindExistingWindow_eq, hlink, hfound]
  simp only [hw, ne_eq, not_false_eq_true, if_true, List.isEmpty_nil, not_true_eq_false,
    if_false]
  refine ⟨rfl, ?_, forall_false_of_filter ?_, call_not_mem_of_filter ?_,
    forall_false_of_filter ?_⟩ <;>
  cases env.isIconic w <;> by_cases hm : env.hMutex = nullptr <;>
    simp [DebugLogW, DebugLogA, State.emit, State.initial, closeMutex, hm,
      enumReads_filter_action, enumReads_filter_send, enumReads_filter_create,
      enumReads_filter_call, List.filter_cons, Event.isWindowAction, Event.isSendMessage,
      Event.isWindowCreate, Event.isCall]

/-- C4, in the sample environment (mutex exists, application window 9 minimized) on the
command line `"C:\app.exe"`. -/
theorem wWinMain_activation_only_witness :
    (wWinMain sampleEnv (L "\"C:\\app.exe\"")).1 = 0
    ∧ (wWinMain sampleEnv (L "\"C:\\app.exe\"")).2.trace.filter Event.isWindowAction
        = [Event.SetForegroundWindow 9, Event.IsIconic 9]
          ++ (if sampleEnv.isIconic 9 then [Event.ShowWindow 9 SW_RESTORE] else [])
    ∧ (∀ e ∈ (wWinMain sampleEnv (L "\"C:\\app.exe\"")).2.trace, e.isSendMessage = false)
    ∧ Event.call Fn.SendDeepLinkToExistingInstance
        ∉ (wWinMain sampleEnv (L "\"C:\\app.exe\"")).2.trace
    ∧ (∀ e ∈ (wWinMain sampleEnv (L "\"C:\\app.exe\"")).2.trace, e.isWindowCreate = false) :=
  wWinMain_activation_only sampleEnv (L "\"C:\\app.exe\"") 9 State.initial rfl (by decide)
    (by decide) (by decide)

end FullStop
